import Mathlib

/-
  Verification of the Intelligent Underwriting Assistant backend.

  Shallow embedding of `src/backend/core.py` and `src/backend/main.py`.
  External collaborators (the PDF parser, the embedding model, the LLM)
  are modelled as explicit function parameters; machinery that lives in
  third-party libraries rather than in this repository (the recursive
  text splitter, the vector store) is modelled from the spec, and each
  such definition says so in its doc comment.
-/

/-- Checks whether `pat` occurs at the head of `s` (list-of-char prefix test). -/
def listPrefixAt : List Char → List Char → Bool
  | [], _ => true
  | _ :: _, [] => false
  | p :: ps, c :: cs => p == c && listPrefixAt ps cs

/-- Checks whether `pat` occurs as a contiguous run anywhere in `s`;
this is Python's `pat in s` substring test. -/
def listContains (pat : List Char) : List Char → Bool
  | [] => pat.isEmpty
  | c :: cs => listPrefixAt pat (c :: cs) || listContains pat cs

/-- `"Error:" in application_text` from `main.py` line 81. -/
def containsErrorMarker (s : String) : Bool :=
  listContains "Error:".data s.data

/-- Python's `str.endswith`, used by `main.py` line 70 for the filename check. -/
def endswith (s pat : String) : Bool :=
  listPrefixAt pat.data.reverse s.data.reverse

/-- `core.py` lines 60-78, `load_application_text_from_bytes(pdf_bytes)`.
The PyPDF2 parser is the external collaborator: `parse` returns `some pages`
(the per-page `extract_text()` results in document order) on success and
`none` when `PdfReader` or any `extract_text()` call raises; the `try/except`
maps the latter to the fixed error string.  The page loop
`application_text += page.extract_text()` is the left fold with `++` from
the empty string, and `if not application_text` is the emptiness test. -/
def load_application_text_from_bytes
    (parse : List Nat → Option (List String)) (pdf_bytes : List Nat) : String :=
  match parse pdf_bytes with
  | none => "Error: Could not read text from PDF."
  | some pages =>
      let application_text := pages.foldl (fun acc page => acc ++ page) ""
      if application_text = "" then "Error: Could not read text from PDF."
      else application_text

/-- An HTTP response from the backend: a 200 JSON body or an
`HTTPException(status_code, detail)`. -/
inductive Resp where
  | ok (body : String)
  | err (status : Nat) (detail : String)
deriving DecidableEq

/-- The numeric status of a response; a normal return is a 200. -/
def respStatus : Resp → Nat
  | Resp.ok _ => 200
  | Resp.err s _ => s

/-- `main.py` lines 63-99, the `POST /analyze` handler, instrumented with a
Boolean recording whether `rag_chain.invoke` was reached.  `rag_chain` models
`app_state.get("rag_chain")` (`none` before startup finished); the chain
itself is a function to `Except E String`, where `E` is the type of internal
exception detail and a `String` result is `response["answer"]`. -/
def analyze_application_run {E : Type} (filename : String) (contents : List Nat)
    (parse : List Nat → Option (List String))
    (rag_chain : Option (String → Except E String)) : Resp × Bool :=
  if !(endswith filename ".pdf") then
    (Resp.err 400 "Invalid file type. Please upload a PDF.", false)
  else
    let application_text := load_application_text_from_bytes parse contents
    if containsErrorMarker application_text then
      (Resp.err 400 application_text, false)
    else
      match rag_chain with
      | none => (Resp.err 500 "RAG chain not initialized.", false)
      | some chain =>
          match chain application_text with
          | Except.ok answer => (Resp.ok answer, true)
          | Except.error _ => (Resp.err 500 "An error occurred during analysis.", true)

/-- The response of `POST /analyze` (the handler's observable HTTP behavior). -/
def analyze_application {E : Type} (filename : String) (contents : List Nat)
    (parse : List Nat → Option (List String))
    (rag_chain : Option (String → Except E String)) : Resp :=
  (analyze_application_run filename contents parse rag_chain).1

/-- A request the running server can receive: `GET /` or `POST /analyze`
(the parser argument stands for the uploaded file's PDF structure). -/
inductive Request where
  | root
  | analyze (filename : String) (contents : List Nat)
      (parse : List Nat → Option (List String))

/-- Dispatch of one request by the server, paired with the application state
after the handler returns.  Neither handler in `main.py` assigns to
`app_state` (`analyze_application` only calls `app_state.get`), so the
returned state is the incoming state. -/
def handle {E : Type} (st : Option (String → Except E String)) :
    Request → Resp × Option (String → Except E String)
  | Request.root => (Resp.ok "Welcome to the Underwriting Assistant API!", st)
  | Request.analyze fn c p => (analyze_application fn c p st, st)

/-- The application state after a sequence of requests has been served. -/
def runRequests {E : Type} (st : Option (String → Except E String))
    (reqs : List Request) : Option (String → Except E String) :=
  reqs.foldl (fun s r => (handle s r).2) st

/-- Modelled from the spec: the Document Chunker of section 4.1
(`RecursiveCharacterTextSplitter` is library code, not part of this
repository).  Splits a document into overlapping fixed-size segments:
each chunk is at most `cs` characters, consecutive chunks overlap by `co`
characters, and a document of at most `cs` characters is a single chunk.
The fuel argument (instantiated with the document length) only enforces
termination; each recursive step strips `cs - co ≥ 1` characters. -/
def chunkDocAux : Nat → Nat → Nat → List Char → List (List Char)
  | 0, _, _, doc => [doc]
  | Nat.succ fuel, cs, co, doc =>
      if doc.length ≤ cs ∨ cs ≤ co then [doc]
      else doc.take cs :: chunkDocAux fuel cs co (doc.drop (cs - co))

/-- Modelled from the spec: the Document Chunker entry point with
parameters `cs = chunk_size` and `co = chunk_overlap`. -/
def chunkDoc (cs co : Nat) (doc : List Char) : List (List Char) :=
  chunkDocAux doc.length cs co doc

/-- Concatenation of a chunk list that strips only the overlap regions:
the first chunk is kept whole and every later chunk drops its first `co`
characters (the characters it shares with its predecessor). -/
def reassemble (co : Nat) : List (List Char) → List Char
  | [] => []
  | c :: rest => c ++ (rest.map (List.drop co)).flatten

/-- Modelled from the spec: a Chunk record of section 3 (id omitted; the
insertion position plays that role), as stored by the vector store. -/
structure Chunk where
  text : String
  vector : List ℚ

/-- Squared Euclidean distance between two vectors, the similarity-equivalent
distance metric of section 4.3 (smaller distance, higher similarity). -/
def sqDist (u v : List ℚ) : ℚ :=
  ((u.zip v).map (fun p => (p.1 - p.2) ^ 2)).sum

/-- Stable insertion by ascending distance to the query vector: an element
is inserted after every earlier element at the same distance, so insertion
order breaks ties. -/
def insertByDist (qv : List ℚ) (c : Chunk) : List Chunk → List Chunk
  | [] => [c]
  | d :: ds =>
      if sqDist c.vector qv < sqDist d.vector qv then c :: d :: ds
      else d :: insertByDist qv c ds

/-- Stable sort of the index by ascending distance to the query vector. -/
def sortByDist (qv : List ℚ) (l : List Chunk) : List Chunk :=
  l.foldr (insertByDist qv) []

/-- Modelled from the spec: `search` of section 4.3 (the Chroma vector store
is library code, not part of this repository).  Returns the `k` chunks
nearest to the query vector, most similar first, ties broken by insertion
order, and never mutates the index. -/
def search (idx : List Chunk) (k : Nat) (qv : List ℚ) : List Chunk :=
  (sortByDist qv idx).take k

/-- The retriever returned by `create_vector_db`: the built index, the
embedding collaborator, and the retrieval cutoff `k`. -/
structure Retriever where
  index : List Chunk
  embed : String → List ℚ
  k : Nat

/-- `core.py` lines 21-58, `create_vector_db(file_path)`.  Takes the loaded
guidelines text (the `TextLoader` result for `file_path`) and the embedding
collaborator (`OllamaEmbeddings`); splits with `chunk_size=1000,
chunk_overlap=200`, embeds each chunk, and returns the retriever built with
`search_kwargs={"k": 3}`.  The function exposes no retrieval-cutoff
parameter: `k` is the literal `3`. -/
def create_vector_db (embed : String → List ℚ) (file_content : String) : Retriever :=
  let chunks := (chunkDoc 1000 200 file_content.data).map
    (fun cl => let t : String := ⟨cl⟩; Chunk.mk t (embed t))
  { index := chunks, embed := embed, k := 3 }

/-- Modelled from the spec: `retrieve` of section 4.4 — embed the query,
search the index, project to chunk texts preserving order. -/
def retrieve (r : Retriever) (q : String) : List String :=
  (search r.index r.k (r.embed q)).map Chunk.text

/-- Modelled from the spec: `retrieve` with the index threaded as explicit
state, so that a second call can be run against whatever index the first
call left behind.  `search` never mutates the index (section 4.3), so the
outgoing state is the incoming index. -/
def retrieveOnIndex (embed : String → List ℚ) (k : Nat) (q : String)
    (idx : List Chunk) : List String × List Chunk :=
  ((search idx k (embed q)).map Chunk.text, idx)

/-- `core.py` lines 95-116: the text of `system_prompt` up to (excluding)
the `context` slot. -/
def promptPart1 : String :=
  "\n    You are an expert underwriting assistant. Your task is to analyze a\n    loan application based *only* on the provided \x27Underwriting Guidelines\x27.\n    \n    Do not use any external knowledge.\n    \n    Analyze the following \x27Loan Application\x27 against the \x27Underwriting Guidelines\x27.\n    \n    Guidelines:\n    "

/-- The text of `system_prompt` between the `context` slot and the `input`
slot. -/
def promptPart2 : String :=
  "\n    \n    Loan Application:\n    "

/-- The text of `system_prompt` after the `input` slot. -/
def promptPart3 : String :=
  "\n    \n    Please provide your analysis in the following format:\n    \n    **Summary:**\n    [Provide a brief summary of the loan application.]\n    \n    **Flagged Risks:**\n    [List all violations or risks found in the application based on the guidelines. \n    For each risk, state the guideline that was violated and why. \n    If no risks are found, state \"No risks flagged.\" ]\n    "

/-- Prompt composition of `create_rag_chain` (`core.py` lines 80-135): the
`ChatPromptTemplate` fills the `context` and `input` slots of the fixed
`system_prompt` by f-string substitution, inserting both values verbatim. -/
def compose (context : String) (application_text : String) : String :=
  promptPart1 ++ context ++ promptPart2 ++ application_text ++ promptPart3

/-- The `context` value produced by `create_stuff_documents_chain`: the
retrieved chunk texts joined in order with the library's document
separator `"\n\n"`. -/
def joinDocs (chunks : List String) : String :=
  String.intercalate "\n\n" chunks

/-- `pat` occurs as a contiguous substring of `s`. -/
def StrContains (pat s : String) : Prop :=
  ∃ pre post : String, s = pre ++ pat ++ post

/-- The text of `promptPart3` before the literal label `Summary`. -/
def part3a : String :=
  "\n    \n    Please provide your analysis in the following format:\n    \n    **"

/-- The text of `promptPart3` between the labels `Summary` and
`Flagged Risks`. -/
def part3b : String :=
  ":**\n    [Provide a brief summary of the loan application.]\n    \n    **"

/-- The text of `promptPart3` after the label `Flagged Risks`. -/
def part3c : String :=
  ":**\n    [List all violations or risks found in the application based on the guidelines. \n    For each risk, state the guideline that was violated and why. \n    If no risks are found, state \"No risks flagged.\" ]\n    "

/-- The page loop of `load_application_text_from_bytes` computes
`String.join` of the per-page texts. -/
theorem join_eq_foldl (pages : List String) :
    pages.foldl (fun acc page => acc ++ page) "" = String.join pages := rfl

/-- Neither request handler writes the application state. -/
theorem handle_snd {E : Type} (st : Option (String → Except E String))
    (r : Request) : (handle st r).2 = st := by
  cases r <;> rfl

/-- C1: code bug.  The handler decides "unreadable PDF" by the substring
test `"Error:" in application_text`, so a PDF whose extraction succeeds
with the non-empty text "Error: applicant self-reported a prior default"
is answered 400 and never analyzed, although the claim (and sections 4.5
and 6 of the spec) say analysis must proceed whenever extraction succeeds
with non-empty text. -/
theorem c1_failing_eval :
    load_application_text_from_bytes
        (fun _ => some ["Error: applicant self-reported a prior default"]) []
      = "Error: applicant self-reported a prior default" ∧
    "Error: applicant self-reported a prior default" ≠ "" ∧
    analyze_application "app.pdf" []
        (fun _ => some ["Error: applicant self-reported a prior default"])
        (some (fun _ => (Except.ok "analysis" : Except Unit String)))
      = Resp.err 400 "Error: applicant self-reported a prior default" :=
  ⟨rfl, by decide, rfl⟩

/-- C2: counterexample to the claim as stated.  `create_vector_db` takes no
retrieval-cutoff argument: no choice of its inputs (embedding collaborator,
guidelines text) yields a retriever whose `k` differs from 3, so a caller
cannot supply a `k` other than the default. -/
theorem c2_counterexample :
    ¬ ∃ (embed : String → List ℚ) (content : String),
        (create_vector_db embed content).k ≠ 3 := by
  rintro ⟨e, c, h⟩
  exact h rfl

/-- C2 amended: the retrieval cutoff is a structural constant of
`create_vector_db` — every retriever it constructs has `k = 3`, and the
function exposes no parameter to change it. -/
theorem c2_theorem (embed : String → List ℚ) (content : String) :
    (create_vector_db embed content).k = 3 := rfl

/-- C5: every failure of the analysis stage — whatever the internal
exception type `E` and detail `e` — is answered with the one fixed
generic 500 body, so no internal detail crosses the HTTP boundary. -/
theorem c5_theorem (E : Type) (e : E) (filename : String) (contents : List Nat)
    (parse : List Nat → Option (List String)) (f : String → Except E String)
    (hpdf : endswith filename ".pdf" = true)
    (hread : containsErrorMarker (load_application_text_from_bytes parse contents) = false)
    (hfail : f (load_application_text_from_bytes parse contents) = Except.error e) :
    analyze_application filename contents parse (some f)
      = Resp.err 500 "An error occurred during analysis." := by
  simp [analyze_application, analyze_application_run, hpdf, hread, hfail]

/-- C5 witness: a concrete failing chain whose internal detail is the
string "boom: secret internal detail"; the response body does not carry it. -/
theorem c5_witness :
    analyze_application "app.pdf" [] (fun _ => some ["hello"])
        (some (fun _ => (Except.error "boom: secret internal detail" : Except String String)))
      = Resp.err 500 "An error occurred during analysis." :=
  c5_theorem String "boom: secret internal detail" "app.pdf" []
    (fun _ => some ["hello"]) (fun _ => Except.error "boom: secret internal detail")
    (by decide) (by decide) rfl

/-- C6: a `.pdf` request whose extracted text passes the readability check,
arriving while the application state does not yet hold the RAG chain, is
answered 500 "RAG chain not initialized." and the LLM chain is never
invoked (the instrumentation Boolean is false). -/
theorem c6_theorem (E : Type) (filename : String) (contents : List Nat)
    (parse : List Nat → Option (List String))
    (hpdf : endswith filename ".pdf" = true)
    (hread : containsErrorMarker (load_application_text_from_bytes parse contents) = false) :
    analyze_application_run filename contents parse
        (none : Option (String → Except E String))
      = (Resp.err 500 "RAG chain not initialized.", false) := by
  simp [analyze_application_run, hpdf, hread]

/-- C6 witness: a concrete readable upload against an empty state. -/
theorem c6_witness :
    analyze_application_run "app.pdf" [] (fun _ => some ["hello"])
        (none : Option (String → Except Unit String))
      = (Resp.err 500 "RAG chain not initialized.", false) :=
  c6_theorem Unit "app.pdf" [] (fun _ => some ["hello"]) (by decide) (by decide)

/-- C7: counterexample to the claim as stated.  A two-page PDF whose pages
both extract to the empty string has concatenation `""`, but the extractor
returns the fixed error string instead of that concatenation. -/
theorem c7_counterexample :
    String.join ["", ""] = "" ∧
    load_application_text_from_bytes (fun _ => some ["", ""]) []
      = "Error: Could not read text from PDF." ∧
    load_application_text_from_bytes (fun _ => some ["", ""]) []
      ≠ String.join ["", ""] :=
  ⟨rfl, rfl, by decide⟩

/-- C7 amended: whenever the per-page texts concatenate to a non-empty
string, the extractor returns exactly that concatenation, in page order,
with no separator inserted; an all-empty extraction is normalized to the
fixed error string instead. -/
theorem c7_theorem (parse : List Nat → Option (List String)) (pdf_bytes : List Nat)
    (pages : List String) (hp : parse pdf_bytes = some pages)
    (hne : String.join pages ≠ "") :
    load_application_text_from_bytes parse pdf_bytes = String.join pages := by
  unfold load_application_text_from_bytes
  rw [hp]
  show (if String.join pages = "" then _ else _) = _
  rw [if_neg hne]
  exact join_eq_foldl pages

/-- C7 witness: a concrete two-page extraction, concatenated with no
separator. -/
theorem c7_witness :
    load_application_text_from_bytes (fun _ => some ["Page one. ", "Page two."]) []
      = String.join ["Page one. ", "Page two."] :=
  c7_theorem (fun _ => some ["Page one. ", "Page two."]) []
    ["Page one. ", "Page two."] rfl (by decide)

/-- C9: after startup, serving any sequence of `GET /` and `POST /analyze`
requests leaves the application state (the stored RAG chain and, with it,
the index the chain wraps) identical, and each single request returns the
state unchanged. -/
theorem c9_theorem (E : Type) (st : Option (String → Except E String))
    (reqs : List Request) :
    runRequests st reqs = st ∧ ∀ r : Request, (handle st r).2 = st := by
  constructor
  · induction reqs generalizing st with
    | nil => rfl
    | cons r rs ih =>
        show runRequests (handle st r).2 rs = st
        rw [handle_snd st r]
        exact ih st
  · exact fun r => handle_snd st r

/-- C10: the extractor is total over its byte input: it always returns a
string, and every parser exception (modelled by `parse` returning `none`)
is mapped to the fixed error string; otherwise the result is either that
fixed error string (empty extraction) or the page concatenation. -/
theorem c10_theorem (parse : List Nat → Option (List String)) (pdf_bytes : List Nat) :
    (parse pdf_bytes = none →
      load_application_text_from_bytes parse pdf_bytes
        = "Error: Could not read text from PDF.") ∧
    (load_application_text_from_bytes parse pdf_bytes
        = "Error: Could not read text from PDF." ∨
     ∃ pages, parse pdf_bytes = some pages ∧
       load_application_text_from_bytes parse pdf_bytes = String.join pages) := by
  constructor
  · intro h
    unfold load_application_text_from_bytes
    rw [h]
  · cases hp : parse pdf_bytes with
    | none =>
        left
        unfold load_application_text_from_bytes
        rw [hp]
    | some pages =>
        by_cases hj : String.join pages = ""
        · left
          unfold load_application_text_from_bytes
          rw [hp]
          show (if String.join pages = "" then _ else _) = _
          rw [if_pos hj]
        · right
          refine ⟨pages, rfl, ?_⟩
          unfold load_application_text_from_bytes
          rw [hp]
          show (if String.join pages = "" then _ else _) = _
          rw [if_neg hj]
          exact join_eq_foldl pages

/-- C10 witness: a raising parser is mapped to the fixed error string. -/
theorem c10_witness :
    load_application_text_from_bytes (fun _ => none) []
      = "Error: Could not read text from PDF." :=
  (c10_theorem (fun _ => none) []).1 rfl

/-- The tail of the prompt template splits at its two literal section
labels. -/
theorem part3_split :
    promptPart3 = part3a ++ "Summary" ++ part3b ++ "Flagged Risks" ++ part3c := rfl

/-- C3: for every retrieved chunk sequence and every application text, the
composed prompt contains the literal labels "Summary" and "Flagged Risks"
of the fixed template, and contains the application text verbatim as a
substring. -/
theorem c3_theorem (chunks : List String) (application_text : String) :
    StrContains "Summary" (compose (joinDocs chunks) application_text) ∧
    StrContains "Flagged Risks" (compose (joinDocs chunks) application_text) ∧
    StrContains application_text (compose (joinDocs chunks) application_text) := by
  refine ⟨⟨promptPart1 ++ joinDocs chunks ++ promptPart2 ++ application_text ++ part3a,
          part3b ++ "Flagged Risks" ++ part3c, ?_⟩,
         ⟨promptPart1 ++ joinDocs chunks ++ promptPart2 ++ application_text ++ part3a
            ++ "Summary" ++ part3b,
          part3c, ?_⟩,
         ⟨promptPart1 ++ joinDocs chunks ++ promptPart2, promptPart3, ?_⟩⟩ <;>
    simp only [compose, part3_split, String.append_assoc]

/-- A document that fits in one chunk is returned whole, whatever the fuel. -/
theorem chunkDocAux_of_le (cs co : Nat) (doc : List Char) (h : doc.length ≤ cs) :
    ∀ fuel : Nat, chunkDocAux fuel cs co doc = [doc] := by
  intro fuel
  cases fuel with
  | zero => rfl
  | succ n => simp [chunkDocAux, h]

/-- Main chunker invariant, by induction on the fuel: with a positive step
(`co < cs`) and enough fuel, stripping the overlaps from the chunk list
reconstructs the document, and the first chunk is the document's first
`cs` characters. -/
theorem chunkDocAux_spec (cs co : Nat) (hco : co < cs) :
    ∀ (fuel : Nat) (doc : List Char), doc.length ≤ fuel →
      reassemble co (chunkDocAux fuel cs co doc) = doc ∧
      ∃ t, chunkDocAux fuel cs co doc = doc.take cs :: t := by
  intro fuel
  induction fuel with
  | zero =>
      intro doc h
      have hd : doc = [] := List.eq_nil_of_length_eq_zero (Nat.le_zero.mp h)
      subst hd
      exact ⟨rfl, ⟨[], by simp [chunkDocAux]⟩⟩
  | succ n ih =>
      intro doc h
      by_cases hb : doc.length ≤ cs ∨ cs ≤ co
      · have h1 : doc.length ≤ cs := hb.resolve_right (Nat.not_le.mpr hco)
        refine ⟨?_, ⟨[], ?_⟩⟩
        · rw [chunkDocAux_of_le cs co doc h1]
          simp [reassemble]
        · rw [chunkDocAux_of_le cs co doc h1, List.take_of_length_le h1]
      · rw [not_or] at hb
        obtain ⟨hb1, hb2⟩ := hb
        have hlen : cs < doc.length := Nat.lt_of_not_le hb1
        have hstep : chunkDocAux (Nat.succ n) cs co doc
            = doc.take cs :: chunkDocAux n cs co (doc.drop (cs - co)) := by
          simp only [chunkDocAux]
          rw [if_neg (by rw [not_or]; exact ⟨hb1, hb2⟩)]
        have hrl : (doc.drop (cs - co)).length = doc.length - (cs - co) :=
          List.length_drop _ _
        have hrle : (doc.drop (cs - co)).length ≤ n := by omega
        obtain ⟨ihr, ⟨t, ht⟩⟩ := ih (doc.drop (cs - co)) hrle
        refine ⟨?_, ⟨_, hstep⟩⟩
        rw [hstep, ht]
        show doc.take cs ++ (((doc.drop (cs - co)).take cs :: t).map (List.drop co)).flatten = doc
        rw [List.map_cons, List.flatten_cons]
        have hre : (doc.drop (cs - co)).take cs ++ (t.map (List.drop co)).flatten
            = doc.drop (cs - co) := by
          rw [ht] at ihr
          exact ihr
        have hco_le : co ≤ ((doc.drop (cs - co)).take cs).length := by
          rw [List.length_take, hrl]
          omega
        have hdrop : List.drop co ((doc.drop (cs - co)).take cs)
            ++ (t.map (List.drop co)).flatten = List.drop co (doc.drop (cs - co)) := by
          rw [← List.drop_append_of_le_length hco_le, hre]
        have hdd : List.drop co (doc.drop (cs - co)) = List.drop cs doc := by
          rw [List.drop_drop]
          congr 1
          omega
        rw [hdrop, hdd, List.take_append_drop]

/-- C4: with overlap smaller than the chunk size, concatenating the
chunker's output while stripping only the overlap regions reconstructs the
document exactly, and a document shorter than `chunk_size` yields exactly
one chunk. -/
theorem c4_theorem (cs co : Nat) (doc : List Char) (hco : co < cs) :
    reassemble co (chunkDoc cs co doc) = doc ∧
    (doc.length < cs → chunkDoc cs co doc = [doc]) := by
  constructor
  · exact (chunkDocAux_spec cs co hco doc.length doc (Nat.le_refl _)).1
  · intro hlt
    exact chunkDocAux_of_le cs co doc (Nat.le_of_lt hlt) doc.length

/-- C4 witness: chunking `abcde` with `chunk_size = 3, chunk_overlap = 1`
gives two chunks that reassemble to the original. -/
theorem c4_witness :
    (1 : Nat) < 3 ∧
    (reassemble 1 (chunkDoc 3 1 [Char.ofNat 97, Char.ofNat 98, Char.ofNat 99,
        Char.ofNat 100, Char.ofNat 101])
      = [Char.ofNat 97, Char.ofNat 98, Char.ofNat 99, Char.ofNat 100, Char.ofNat 101] ∧
     ([Char.ofNat 97, Char.ofNat 98, Char.ofNat 99, Char.ofNat 100,
        Char.ofNat 101].length < 3 →
      chunkDoc 3 1 [Char.ofNat 97, Char.ofNat 98, Char.ofNat 99, Char.ofNat 100,
        Char.ofNat 101]
        = [[Char.ofNat 97, Char.ofNat 98, Char.ofNat 99, Char.ofNat 100,
            Char.ofNat 101]])) :=
  ⟨by decide,
   c4_theorem 3 1 [Char.ofNat 97, Char.ofNat 98, Char.ofNat 99, Char.ofNat 100,
     Char.ofNat 101] (by decide)⟩

/-- C8: retrieval is idempotent against an unchanged index — the first
call returns the index unchanged, and a second call with the same query
text against the index the first call left behind returns the identical
ordered result list (the embedding collaborator is a fixed function, the
spec's determinism for a fixed model/version). -/
theorem c8_theorem (embed : String → List ℚ) (k : Nat) (q : String)
    (idx : List Chunk) :
    (retrieveOnIndex embed k q idx).2 = idx ∧
    (retrieveOnIndex embed k q ((retrieveOnIndex embed k q idx).2)).1
      = (retrieveOnIndex embed k q idx).1 :=
  ⟨rfl, rfl⟩
